import Mathlib

/-!
Verification of the authentication/authorization core of a users+items CRUD
backend (FastAPI template).  The embedding covers:

* the identifier codec (Python `str(uuid)` / `UUID(hex=...)`), modelled as an
  injective decimal rendering with a partial inverse;
* the signed-token layer (PyJWT `encode`/`decode`), modelled symbolically: a
  token is either a structure signed with a key and algorithm, or an unsigned
  blob; signature verification is ideal (an unsigned blob never verifies);
* the password hasher (passlib `CryptContext` over bcrypt), modelled by its
  control flow: scheme identification (`UnknownHashError`), digest parsing
  (`MalformedHashError`), secret validation (NUL bytes), then comparison;
* the strict and optional identity resolvers of `app/api/deps.py`;
* the item permission helper and the user endpoints of
  `app/api/routes/items.py` and `app/api/routes/users.py`;
* the password-reset token flow of `app/core/emails.py`.

Time is modelled as natural-number seconds.  Principal and item identifiers
are modelled as naturals (the concrete 128-bit UUID format is immaterial to
the properties proved here; what matters is the render/parse round trip and
injectivity, which the decimal codec provides honestly).
-/

namespace App

/-! ## Identifier codec: models Python `str(uuid)` and `UUID(hex=...)` -/

/-- Character for a decimal digit. -/
def digitChar (d : Nat) : Char := Char.ofNat (48 + d)

/-- Partial inverse of `digitChar`: parse one character as a decimal digit. -/
def charToDigit (c : Char) : Option Nat :=
  if 48 ≤ c.toNat ∧ c.toNat ≤ 57 then some (c.toNat - 48) else none

/-- Little-endian decimal digits of `n`, with explicit fuel (`n` itself is
always enough fuel, since the number of digits never exceeds the number). -/
def natDigitsAux : Nat → Nat → List Nat
  | 0, _ => []
  | _ + 1, 0 => []
  | fuel + 1, n + 1 => ((n + 1) % 10) :: natDigitsAux fuel ((n + 1) / 10)

/-- Little-endian decimal digits of `n`. -/
def natDigits (n : Nat) : List Nat := natDigitsAux n n

/-- Value of a little-endian digit list. -/
def digitsVal : List Nat → Nat
  | [] => 0
  | d :: ds => d + 10 * digitsVal ds

/-- Parse every character of a list as a decimal digit; fail if any is not. -/
def parseDigits : List Char → Option (List Nat)
  | [] => some []
  | c :: cs =>
    match charToDigit c, parseDigits cs with
    | some d, some ds => some (d :: ds)
    | _, _ => none

/-- Models Python `str(subject)` on a principal id: an injective rendering of
the identifier as a string (big-endian decimal). -/
def uuidToStr (u : Nat) : String :=
  if u = 0 then "0" else String.mk (((natDigits u).reverse).map digitChar)

/-- Models Python `UUID(hex=s)`: partial parse of an identifier string,
failing (the `ValueError` branch in the source) on anything that is not a
rendered identifier. -/
def uuidFromStr (s : String) : Option Nat :=
  if s.data.isEmpty then none
  else (parseDigits s.data).map (fun ds => digitsVal ds.reverse)

theorem digitsVal_natDigitsAux :
    ∀ fuel n, n ≤ fuel → digitsVal (natDigitsAux fuel n) = n := by
  intro fuel
  induction fuel with
  | zero =>
    intro n h
    interval_cases n
    simp [natDigitsAux, digitsVal]
  | succ f ih =>
    intro n h
    match n with
    | 0 => simp [natDigitsAux, digitsVal]
    | m + 1 =>
      have hlt : (m + 1) / 10 < m + 1 := Nat.div_lt_self (Nat.succ_pos m) (by norm_num)
      have hdiv : (m + 1) / 10 ≤ f := by omega
      simp only [natDigitsAux, digitsVal, ih _ hdiv]
      omega

theorem natDigitsAux_lt_ten :
    ∀ fuel n d, d ∈ natDigitsAux fuel n → d < 10 := by
  intro fuel
  induction fuel with
  | zero => intro n d hd; simp [natDigitsAux] at hd
  | succ f ih =>
    intro n d hd
    match n with
    | 0 => simp [natDigitsAux] at hd
    | m + 1 =>
      simp only [natDigitsAux, List.mem_cons] at hd
      rcases hd with h | h
      · subst h; exact Nat.mod_lt _ (by norm_num)
      · exact ih _ _ h

theorem charToDigit_digitChar (d : Nat) (hd : d < 10) :
    charToDigit (digitChar d) = some d := by
  interval_cases d <;> rfl

theorem parseDigits_map_digitChar :
    ∀ ds : List Nat, (∀ d ∈ ds, d < 10) →
      parseDigits (ds.map digitChar) = some ds := by
  intro ds
  induction ds with
  | nil => intro _; rfl
  | cons d ds ih =>
    intro h
    have hd : d < 10 := h d (List.mem_cons_self d ds)
    have hds : ∀ x ∈ ds, x < 10 := fun x hx => h x (List.mem_cons_of_mem d hx)
    simp only [List.map_cons, parseDigits, charToDigit_digitChar d hd, ih hds]

theorem natDigits_ne_nil (n : Nat) (hn : n ≠ 0) : natDigits n ≠ [] := by
  match n, hn with
  | m + 1, _ => simp [natDigits, natDigitsAux]

/-- Round trip of the identifier codec: parsing the rendered form of an
identifier recovers the identifier (the Python `UUID(hex=str(u)) == u` fact
used by the resolvers). -/
theorem uuidFromStr_uuidToStr (u : Nat) : uuidFromStr (uuidToStr u) = some u := by
  by_cases hu : u = 0
  · subst hu; rfl
  · have hne : natDigits u ≠ [] := natDigits_ne_nil u hu
    have hlt : ∀ d ∈ (natDigits u).reverse, d < 10 := by
      intro d hd
      exact natDigitsAux_lt_ten u u d (List.mem_reverse.mp hd)
    have hval : digitsVal (natDigits u) = u := digitsVal_natDigitsAux u u (Nat.le_refl u)
    unfold uuidToStr uuidFromStr
    simp only [if_neg hu]
    have hempty : (((natDigits u).reverse).map digitChar).isEmpty = false := by
      rcases h : (natDigits u).reverse with _ | ⟨c, cs⟩
      · exact absurd (List.reverse_eq_nil_iff.mp h) hne
      · rfl
    simp only [hempty, Bool.false_eq_true, if_false, parseDigits_map_digitChar _ hlt]
    simp [hval]

/-! ## Data model (`app/models.py`) -/

/-- The `User` table model of `app/models.py` (fields relevant to auth). -/
structure User where
  id : Nat
  email : String
  is_active : Bool
  is_superuser : Bool
  hashed_password : String
  deriving Repr, DecidableEq

/-- The `Item` table model of `app/models.py`. -/
structure Item where
  id : Nat
  owner_id : Nat
  title : String
  deriving Repr, DecidableEq

/-- The configuration fields of `app/core/config.py` used by the auth core:
`SECRET_KEY`, `ACCESS_TOKEN_EXPIRE_MINUTES` (default 60*24*8) and
`EMAIL_RESET_TOKEN_EXPIRE_HOURS` (default 48). -/
structure Settings where
  SECRET_KEY : String
  ACCESS_TOKEN_EXPIRE_MINUTES : Nat := 60 * 24 * 8
  EMAIL_RESET_TOKEN_EXPIRE_HOURS : Nat := 48
  deriving Repr, DecidableEq

/-! ## Signed-token layer (PyJWT, modelled symbolically)

A JWT is modelled as either a payload signed with a key under an algorithm, or
an arbitrary blob that carries no valid signature (`garbage`).  Signature
verification is ideal: `garbage` never verifies, and a signed token verifies
exactly under its own key.  Tampering with a validly signed token string is
modelled as producing a `garbage` blob (ideal unforgeability of the MAC). -/

/-- The claim set produced by this codebase: `sub`, `exp`, and (for reset
tokens only) `nbf`. -/
structure JwtPayload where
  sub : String
  exp : Nat
  nbf : Option Nat := none
  deriving Repr, DecidableEq

/-- A token string, viewed through the ideal-signature abstraction. -/
inductive Token where
  | signed (payload : JwtPayload) (key : String) (alg : String)
  | garbage (raw : String)
  deriving Repr, DecidableEq

/-- PyJWT `nbf` check: absent or not in the future. -/
def nbfOk (nbf : Option Nat) (now : Nat) : Bool :=
  match nbf with
  | none => true
  | some t0 => t0 ≤ now

/-- Models `jwt.decode(jwt=token, key=key, algorithms=algs)`: succeeds exactly
when the signature verifies under `key`, the algorithm is accepted, the token
is not expired and not `nbf`-immature; every failure raises
`InvalidTokenError`, modelled as `none`. -/
def jwtDecode (t : Token) (key : String) (algs : List String) (now : Nat) :
    Option JwtPayload :=
  match t with
  | .garbage _ => none
  | .signed p k a =>
    if k == key && algs.contains a && nbfOk p.nbf now && decide (now < p.exp)
    then some p else none

/-! ## `app/core/security.py` -/

/-- `SecurityManager.ALGORITHM`. -/
def ALGORITHM : String := "HS256"

/-- `SecurityManager.create_access_token`: payload `{exp: now + delta, sub:
str(subject)}` signed with `SECRET_KEY` under HS256.  The caller passes the
subject already rendered as a string (`str(user.id)` at the login route). -/
def create_access_token (s : Settings) (now : Nat) (subject : String)
    (expires_delta : Nat) : Token :=
  .signed { sub := subject, exp := now + expires_delta } s.SECRET_KEY ALGORITHM

/-- The radix-64 alphabet bcrypt uses for salt and checksum characters. -/
def bcrypt64Alphabet : List Char :=
  "./ABCDEFGHIJKLMNOPQRSTUVWXYZabcdefghijklmnopqrstuvwxyz0123456789".data

/-- A character of the bcrypt radix-64 alphabet selected by `n`. -/
def bcrypt64Char (n : Nat) : Char := bcrypt64Alphabet.getD (n % 64) '.'

/-- Deterministic mixing of a secret into a 64-bit value; stands in for the
bcrypt key schedule, whose cryptographic content plays no role in any claim. -/
def secretMix (secret : String) : Nat :=
  secret.data.foldl (fun h c => (h * 131 + c.toNat) % 2 ^ 64) 5381

/-- Abstract 31-character bcrypt checksum derived from the secret. -/
def abstractChecksum (secret : String) : List Char :=
  (List.range 31).map (fun i => bcrypt64Char (secretMix secret / 64 ^ i))

/-- A fixed 22-character salt (passlib embeds the salt in the digest and
re-derives the checksum from it; a fixed salt keeps the model a function). -/
def fixedSalt : List Char := List.replicate 22 '.'

/-- Abstract model of the bcrypt digest produced by passlib for a secret:
`$2b$`, a two-digit cost, `$`, then 22 salt and 31 checksum characters.  Only
the wire shape and the exception behaviour of the hasher are modelled (the
one-wayness of bcrypt plays no role in the claims). -/
def bcryptHash (secret : String) : String :=
  String.mk ('$' :: '2' :: 'b' :: '$' :: '1' :: '2' :: '$' ::
    (fixedSalt ++ abstractChecksum secret))

/-- Whether passlib identifies the digest as belonging to the configured
bcrypt scheme (identification looks only at the `$2b$` magic at the start of
the digest; it does not parse the rest). -/
def identifiedAsBcrypt (hashed : String) : Bool :=
  match hashed.data with
  | '$' :: '2' :: 'b' :: '$' :: _ => true
  | _ => false

/-- Whether a character belongs to the bcrypt radix-64 alphabet. -/
def isBcrypt64 (c : Char) : Bool := c.isAlphanum || c == '.' || c == '/'

/-- Whether what follows the `$2b$` magic parses as a bcrypt hash: a
two-digit cost, `$`, and exactly 53 radix-64 characters (22 of salt, 31 of
checksum). -/
def wellFormedBcryptBody (body : List Char) : Bool :=
  match body with
  | r1 :: r2 :: '$' :: rest =>
    r1.isDigit && r2.isDigit && rest.length == 53 && rest.all isBcrypt64
  | _ => false

/-- Whether the digest parses as a bcrypt hash (`handler.from_string`). -/
def wellFormedBcrypt (hashed : String) : Bool :=
  match hashed.data with
  | '$' :: '2' :: 'b' :: '$' :: body => wellFormedBcryptBody body
  | _ => false

theorem isBcrypt64_bcrypt64Char (n : Nat) : isBcrypt64 (bcrypt64Char n) = true := by
  unfold bcrypt64Char
  have h : n % 64 < 64 := Nat.mod_lt _ (by norm_num)
  generalize n % 64 = m at h
  interval_cases m <;> decide

/-- Coherence of the hasher model: the digests the abstract hasher emits are
identified and parse as bcrypt hashes, so the comparison branch of
`cryptContextVerify` is the one genuine digests reach. -/
theorem bcryptHash_wellFormed (secret : String) :
    identifiedAsBcrypt (bcryptHash secret) = true
    ∧ wellFormedBcrypt (bcryptHash secret) = true := by
  constructor
  · rfl
  · show wellFormedBcryptBody ('1' :: '2' :: '$' :: (fixedSalt ++ abstractChecksum secret))
      = true
    unfold wellFormedBcryptBody
    have hlen : (fixedSalt ++ abstractChecksum secret).length = 53 := by
      simp [fixedSalt, abstractChecksum]
    have hall : (fixedSalt ++ abstractChecksum secret).all isBcrypt64 = true := by
      simp only [List.all_append, Bool.and_eq_true, List.all_eq_true]
      constructor
      · intro c hc
        have : c = '.' := List.eq_of_mem_replicate hc
        subst this; rfl
      · intro c hc
        simp only [abstractChecksum, List.mem_map] at hc
        obtain ⟨i, _, hi⟩ := hc
        subst hi
        exact isBcrypt64_bcrypt64Char _
    simp [hlen, hall]

/-- `EmailManager.generate_password_reset_token`: payload
`{exp: (now + hours).timestamp(), nbf: now, sub: email}` signed with
`SECRET_KEY` under HS256. -/
def generate_password_reset_token (s : Settings) (now : Nat) (email : String) :
    Token :=
  .signed
    { sub := email
      exp := now + s.EMAIL_RESET_TOKEN_EXPIRE_HOURS * 3600
      nbf := some now }
    s.SECRET_KEY ALGORITHM

/-- `EmailManager.verify_password_reset_token`: decode with the same key and
algorithm and return `str(payload["sub"])`; any `InvalidTokenError` yields
`None`.  No purpose or audience claim is checked. -/
def verify_password_reset_token (s : Settings) (now : Nat) (t : Token) :
    Option String :=
  match jwtDecode t s.SECRET_KEY [ALGORITHM] now with
  | some payload => some payload.sub
  | none => none

/-! ## Principal and resource stores (`app/crud/user.py`, `app/crud/item.py`)

The database is modelled as a list of rows with unique primary keys;
`session.get` is lookup by primary key, `session.delete` removes the row. -/

/-- `UserCRUD.get_by_id`. -/
def getById (store : List User) (uid : Nat) : Option User :=
  store.find? (fun u => u.id == uid)

/-- `UserCRUD.remove`: delete the row with the given primary key. -/
def userRemove (store : List User) (uid : Nat) : List User :=
  store.filter (fun u => !(u.id == uid))

/-- `ItemCRUD.get`. -/
def itemGet (items : List Item) (iid : Nat) : Option Item :=
  items.find? (fun it => it.id == iid)

/-- `ItemCRUD.remove_by_owner`: `DELETE FROM item WHERE owner_id = :owner`. -/
def itemsRemoveByOwner (items : List Item) (owner : Nat) : List Item :=
  items.filter (fun it => !(it.owner_id == owner))

/-! ## Identity resolvers (`app/api/deps.py`) -/

/-- The failures `CurrentUserProvider.__call__` can raise: 403 "Could not
validate credentials", 404 "User not found", 400 "Inactive user". -/
inductive AuthError where
  | invalidCredentials
  | userNotFound
  | inactiveUser
  deriving Repr, DecidableEq

/-- `CurrentUserProvider.__call__` (strict resolution): decode the token and
parse its subject as a UUID (both failures are caught together and mapped to
403), look the principal up by id (absent: 404), reject inactive principals
(400), otherwise return the principal. -/
def currentUser (s : Settings) (store : List User) (now : Nat) (token : Token) :
    Except AuthError User :=
  match jwtDecode token s.SECRET_KEY [ALGORITHM] now with
  | none => .error .invalidCredentials
  | some payload =>
    match uuidFromStr payload.sub with
    | none => .error .invalidCredentials
    | some user_id =>
      match getById store user_id with
      | none => .error .userNotFound
      | some user =>
        if !user.is_active then .error .inactiveUser else .ok user

/-- `OptionalCurrentUserProvider.__call__` (optional resolution).  The second
component records the ids queried from the Principal Store during the call, so
that frame claims ("zero lookups") are part of the function's meaning.  The
source returns `None` for an absent token before any work; decode and
subject-parse failures are swallowed (`except ... return None`); a found but
inactive principal is normalized to `None`; an absent principal is already
`None`. -/
def optionalCurrentUser (s : Settings) (store : List User) (now : Nat) :
    Option Token → Option User × List Nat
  | none => (none, [])
  | some token =>
    match jwtDecode token s.SECRET_KEY [ALGORITHM] now with
    | none => (none, [])
    | some payload =>
      match uuidFromStr payload.sub with
      | none => (none, [])
      | some user_id =>
        match getById store user_id with
        | some user => if !user.is_active then (none, [user_id]) else (some user, [user_id])
        | none => (none, [user_id])

/-! ## Item endpoints (`app/api/routes/items.py`) -/

/-- Outcome of `ItemsRouter._get_and_validate_item`: 401, 404, 403, or the
validated item. -/
inductive ItemOutcome where
  | unauthenticated
  | itemNotFound
  | forbidden
  | ok (item : Item)
  deriving Repr, DecidableEq

/-- `ItemsRouter._get_and_validate_item`: the shared read/update/delete gate.
401 when no principal resolved, 404 when the item is absent, 403 when the
principal is neither superuser nor owner, otherwise the item. -/
def getAndValidateItem (current_user : Option User) (items : List Item)
    (item_id : Nat) : ItemOutcome :=
  match current_user with
  | none => .unauthenticated
  | some user =>
    match itemGet items item_id with
    | none => .itemNotFound
    | some db_item =>
      if !user.is_superuser && (db_item.owner_id != user.id) then .forbidden
      else .ok db_item

/-! ## User endpoints (`app/api/routes/users.py`) -/

/-- Outcome of `UsersRouter.delete_user_me`. -/
inductive SelfDeleteOutcome where
  | forbidden
  | deleted (users : List User)
  deriving Repr, DecidableEq

/-- `UsersRouter.delete_user_me`: a superuser is refused (403); otherwise the
caller's own row is removed and a success message returned. -/
def delete_user_me (users : List User) (current_user : User) : SelfDeleteOutcome :=
  if current_user.is_superuser then .forbidden
  else .deleted (userRemove users current_user.id)

/-- Outcome of `UsersRouter.delete_user` (admin path). -/
inductive AdminDeleteOutcome where
  | userNotFound
  | forbidden
  | deleted (users : List User) (items : List Item)
  deriving Repr, DecidableEq

/-- `UsersRouter.delete_user`: the caller is an already-resolved superuser
(the `CurrentSuperuser` dependency); 404 when the target id is absent, 403
when the target is the caller, otherwise cascade-delete the target's items
and remove the target. -/
def delete_user (users : List User) (items : List Item) (current_superuser : User)
    (user_id : Nat) : AdminDeleteOutcome :=
  match getById users user_id with
  | none => .userNotFound
  | some user_to_delete =>
    if user_to_delete.id == current_superuser.id then .forbidden
    else .deleted (userRemove users user_id) (itemsRemoveByOwner items user_id)

/-- Outcome of `UsersRouter.read_user_by_id`. -/
inductive ReadUserOutcome where
  | userNotFound
  | forbidden
  | ok (user : User)
  deriving Repr, DecidableEq

/-- `UsersRouter.read_user_by_id`: look the target up first (absent: 404),
return it when it is the caller, reject non-superusers (403), otherwise
return it. -/
def read_user_by_id (users : List User) (current_user : User) (user_id : Nat) :
    ReadUserOutcome :=
  match getById users user_id with
  | none => .userNotFound
  | some user =>
    if user.id == current_user.id then .ok user
    else if !current_user.is_superuser then .forbidden
    else .ok user

/-! ## Concrete fixtures used by the witnesses -/

/-- A concrete deployment configuration (default TTLs). -/
def s0 : Settings := { SECRET_KEY := "k" }

/-- A regular (non-superuser) active principal. -/
def alice : User :=
  { id := 7, email := "alice@example.com", is_active := true,
    is_superuser := false, hashed_password := bcryptHash "alicepw" }

/-- An active superuser principal. -/
def bob : User :=
  { id := 9, email := "bob@example.com", is_active := true,
    is_superuser := true, hashed_password := bcryptHash "bobpw" }

/-- A concrete Principal Store. -/
def store0 : List User := [alice, bob]

/-- A concrete item owned by `alice`. -/
def item1 : Item := { id := 1, owner_id := 7, title := "thing" }

/-- A concrete Resource Store. -/
def items0 : List Item := [item1]

/-! ## Claims -/

/-- C1: for every principal `P` stored with `is_active = true`, strict
resolution of an access token issued for `P`'s id returns exactly `P`,
provided the TTL has not elapsed and the store still contains `P`. -/
theorem strict_resolution_roundtrip (s : Settings) (store : List User) (P : User)
    (ttl tIss tChk : Nat)
    (hstore : getById store P.id = some P)
    (hactive : P.is_active = true)
    (hfresh : tChk < tIss + ttl) :
    currentUser s store tChk (create_access_token s tIss (uuidToStr P.id) ttl)
      = .ok P := by
  unfold currentUser create_access_token jwtDecode
  simp [ALGORITHM, nbfOk, hfresh, uuidFromStr_uuidToStr, hstore, hactive]

/-- Witness for C1. -/
theorem strict_resolution_roundtrip_witness :
    getById store0 alice.id = some alice ∧ alice.is_active = true
    ∧ (5 : Nat) < 0 + 60
    ∧ currentUser s0 store0 5 (create_access_token s0 0 (uuidToStr alice.id) 60)
        = .ok alice :=
  ⟨rfl, rfl, by decide,
    strict_resolution_roundtrip s0 store0 alice 60 0 5 rfl rfl (by decide)⟩

/-- C2: for a resolved principal and an existing item, the read/update/delete
gate admits the operation iff the principal is a superuser or owns the item,
and yields Forbidden in every other case (the full 2×2 matrix). -/
theorem item_policy_matrix (user : User) (items : List Item) (item_id : Nat)
    (it : Item) (hget : itemGet items item_id = some it) :
    getAndValidateItem (some user) items item_id
      = (if user.is_superuser || it.owner_id == user.id then .ok it else .forbidden) := by
  unfold getAndValidateItem
  simp only [hget]
  cases hsu : user.is_superuser <;> cases hown : it.owner_id == user.id <;>
    simp [hsu, hown, bne]

/-- Witness for C2. -/
theorem item_policy_matrix_witness :
    itemGet items0 1 = some item1
    ∧ getAndValidateItem (some alice) items0 1
        = (if alice.is_superuser || item1.owner_id == alice.id then .ok item1 else .forbidden) :=
  ⟨rfl, item_policy_matrix alice items0 1 item1 rfl⟩

/-- C3: a superuser is denied self-deletion on both paths (the self-delete
endpoint rejects any superuser; the admin delete-by-id endpoint rejects a
target equal to the calling superuser), while a regular principal's
self-deletion succeeds and removes their row. -/
theorem superuser_delete_rules (users : List User) (items : List Item)
    (su u : User)
    (hsu : su.is_superuser = true)
    (hmem : getById users su.id = some su)
    (hu : u.is_superuser = false) :
    delete_user_me users su = .forbidden
    ∧ delete_user users items su su.id = .forbidden
    ∧ delete_user_me users u = .deleted (userRemove users u.id) := by
  refine ⟨?_, ?_, ?_⟩
  · unfold delete_user_me; simp [hsu]
  · unfold delete_user; simp [hmem]
  · unfold delete_user_me; simp [hu]

/-- Witness for C3. -/
theorem superuser_delete_rules_witness :
    bob.is_superuser = true ∧ getById store0 bob.id = some bob
    ∧ alice.is_superuser = false
    ∧ delete_user_me store0 bob = .forbidden
    ∧ delete_user store0 items0 bob bob.id = .forbidden
    ∧ delete_user_me store0 alice = .deleted (userRemove store0 alice.id) := by
  refine ⟨rfl, rfl, rfl, ?_⟩
  exact superuser_delete_rules store0 items0 bob alice rfl rfl rfl

/-- C4: optional resolution of an absent token returns no principal and
performs zero Principal Store lookups (the recorded lookup trace is empty),
for every store, configuration and time. -/
theorem optional_none_no_lookup (s : Settings) (store : List User) (now : Nat) :
    optionalCurrentUser s store now none = (none, []) := rfl

/-- C5: optional resolution of a token that fails to decode (tampered,
malformed, expired) or whose subject does not parse as an identifier returns
no principal without raising, with an outcome — principal and store-lookup
trace alike — identical to resolving with no token at all. -/
theorem optional_invalid_token_anonymous (s : Settings) (store : List User)
    (now : Nat) (t : Token)
    (h : jwtDecode t s.SECRET_KEY [ALGORITHM] now = none
      ∨ ∃ p, jwtDecode t s.SECRET_KEY [ALGORITHM] now = some p ∧ uuidFromStr p.sub = none) :
    optionalCurrentUser s store now (some t) = (none, [])
    ∧ optionalCurrentUser s store now (some t) = optionalCurrentUser s store now none := by
  have hmain : optionalCurrentUser s store now (some t) = (none, []) := by
    unfold optionalCurrentUser
    rcases h with h | ⟨p, hp, hsub⟩
    · simp [h]
    · simp [hp, hsub]
  exact ⟨hmain, hmain.trans rfl⟩

/-- Witness for C5. -/
theorem optional_invalid_token_anonymous_witness :
    optionalCurrentUser s0 store0 5 (some (Token.garbage "tampered")) = (none, [])
    ∧ optionalCurrentUser s0 store0 5 (some (Token.garbage "tampered"))
        = optionalCurrentUser s0 store0 5 none :=
  optional_invalid_token_anonymous s0 store0 5 (Token.garbage "tampered") (Or.inl rfl)

/-- C6: in optional mode every non-`none` principal handed to the handler is
active: an inactive principal is normalized to no identity. -/
theorem optional_resolved_principal_is_active (s : Settings) (store : List User)
    (now : Nat) (t : Option Token) (u : User)
    (h : (optionalCurrentUser s store now t).fst = some u) :
    u.is_active = true := by
  rcases t with _ | tok
  · simp [optionalCurrentUser] at h
  · unfold optionalCurrentUser at h
    repeat' split at h
    all_goals simp_all

/-- Witness for C6. -/
theorem optional_resolved_principal_is_active_witness :
    (optionalCurrentUser s0 store0 5
        (some (create_access_token s0 0 (uuidToStr alice.id) 60))).fst = some alice
    ∧ alice.is_active = true :=
  ⟨rfl, optional_resolved_principal_is_active s0 store0 5
    (some (create_access_token s0 0 (uuidToStr alice.id) 60)) alice rfl⟩

/-- C7: the password-reset round trip.  Within the TTL window verification
returns the embedded email; once the TTL has elapsed it returns `none`; a
token whose signature no longer verifies (any mutation, under the
ideal-signature model) also yields `none`. -/
theorem reset_token_roundtrip (s : Settings) (email raw : String)
    (tIss tChk : Nat) (hnbf : tIss ≤ tChk) :
    (tChk < tIss + s.EMAIL_RESET_TOKEN_EXPIRE_HOURS * 3600 →
      verify_password_reset_token s tChk (generate_password_reset_token s tIss email)
        = some email)
    ∧ (tIss + s.EMAIL_RESET_TOKEN_EXPIRE_HOURS * 3600 ≤ tChk →
      verify_password_reset_token s tChk (generate_password_reset_token s tIss email)
        = none)
    ∧ verify_password_reset_token s tChk (Token.garbage raw) = none := by
  refine ⟨?_, ?_, rfl⟩
  · intro hfresh
    unfold verify_password_reset_token generate_password_reset_token jwtDecode
    simp [nbfOk, hnbf, hfresh]
  · intro hexp
    have hstale : ¬ (tChk < tIss + s.EMAIL_RESET_TOKEN_EXPIRE_HOURS * 3600) :=
      Nat.not_lt.mpr hexp
    unfold verify_password_reset_token generate_password_reset_token jwtDecode
    simp [nbfOk, hnbf, hstale]

/-- Witness for C7. -/
theorem reset_token_roundtrip_witness :
    verify_password_reset_token s0 10 (generate_password_reset_token s0 0 "u@x.com")
      = some "u@x.com"
    ∧ verify_password_reset_token s0 172800 (generate_password_reset_token s0 0 "u@x.com")
      = none
    ∧ verify_password_reset_token s0 10 (Token.garbage "mut") = none :=
  ⟨(reset_token_roundtrip s0 "u@x.com" "mut" 0 10 (by decide)).1 (by decide),
   (reset_token_roundtrip s0 "u@x.com" "mut" 0 172800 (by decide)).2.1 (by decide),
   (reset_token_roundtrip s0 "u@x.com" "mut" 0 10 (by decide)).2.2⟩

/-- C9: the password-reset verifier accepts any unexpired access token —
same key, same algorithm, a `sub` claim and no purpose separation — and
returns the access token's subject (the principal id in string form) instead
of `none`. -/
theorem reset_verifier_accepts_access_token (s : Settings)
    (uid ttl tIss tChk : Nat) (hfresh : tChk < tIss + ttl) :
    verify_password_reset_token s tChk (create_access_token s tIss (uuidToStr uid) ttl)
      = some (uuidToStr uid) := by
  unfold verify_password_reset_token create_access_token jwtDecode
  simp [nbfOk, hfresh]

/-- Witness for C9. -/
theorem reset_verifier_accepts_access_token_witness :
    verify_password_reset_token s0 5 (create_access_token s0 0 (uuidToStr 7) 60)
      = some (uuidToStr 7) :=
  reset_verifier_accepts_access_token s0 7 60 0 5 (by decide)

/-- C10: for a non-superuser caller, reading a user by id returns the record
iff the requested id is the caller's own; an absent id yields NotFound while
a present id belonging to another user yields Forbidden (the existence check
runs before the permission check). -/
theorem read_user_by_id_policy (users : List User) (cu : User) (user_id : Nat)
    (hns : cu.is_superuser = false) :
    (getById users user_id = none → read_user_by_id users cu user_id = .userNotFound)
    ∧ ∀ t, getById users user_id = some t →
        read_user_by_id users cu user_id
          = (if t.id == cu.id then .ok t else .forbidden) := by
  constructor
  · intro h; unfold read_user_by_id; simp [h]
  · intro t h
    unfold read_user_by_id
    simp only [h]
    cases hid : t.id == cu.id <;> simp [hid, hns]

/-- Witness for C10. -/
theorem read_user_by_id_policy_witness :
    alice.is_superuser = false
    ∧ getById store0 99 = none
    ∧ read_user_by_id store0 alice 99 = .userNotFound
    ∧ getById store0 bob.id = some bob
    ∧ read_user_by_id store0 alice bob.id
        = (if bob.id == alice.id then .ok bob else .forbidden) :=
  ⟨rfl, rfl, (read_user_by_id_policy store0 alice 99 rfl).1 rfl, rfl,
   (read_user_by_id_policy store0 alice bob.id rfl).2 bob rfl⟩

end App
